import Mathlib

/-
  Verification development for the Personal Mail Server repository
  (weizart/email-server).

  Shallow embedding of the core under verification:
    - models.py      : the SQLAlchemy schema (User / Folder / Email rows)
    - storage.py     : MailStorage.save_email / get_emails / update_flags
    - mail_server.py : CustomSMTP authentication gates and AUTH LOGIN machine
    - smtp_handler.py: SMTPHandler mail-acceptance gates
    - imap_handler.py: IMAPProtocol.data_received / handle_fetch

  Python strings and bytes are both modelled as `List Nat` (byte values) or
  `List Char` where the source manipulates text; machine integers do not
  occur.  Python exceptions are modelled with `Except PyErr`.

  External libraries used by the source (base64, utf-8 codec, bcrypt,
  cryptography.fernet, email header parsing) are modelled by executable Lean
  functions that keep exactly the behaviour the source depends on
  (success/failure and round-trip structure).
-/

namespace EmailServer

/-- Kinds of Python-level failures that the embedded code can raise.  The
constructors `notFound` and `unknownRecipient` never arise from the embedded
code; they exist so that the spec's claimed error outcomes (`NotFound`,
`UnknownRecipient`) can be stated and compared against what the code does. -/
inductive PyErr where
  | typeError : PyErr
  | attributeError : PyErr
  | compileError : PyErr
  | multipleResults : PyErr
  | notFound : PyErr
  | unknownRecipient : PyErr
deriving DecidableEq

/-! ## Model of the base64 library (`base64.b64decode(...)` non-strict) -/

/-- Value of a base64 alphabet character, `none` for non-alphabet characters. -/
def b64charVal (c : Char) : Option Nat :=
  if 65 ≤ c.toNat ∧ c.toNat ≤ 90 then some (c.toNat - 65)
  else if 97 ≤ c.toNat ∧ c.toNat ≤ 122 then some (c.toNat - 97 + 26)
  else if 48 ≤ c.toNat ∧ c.toNat ≤ 57 then some (c.toNat - 48 + 52)
  else if c = '+' then some 62
  else if c = '/' then some 63
  else none

/-- First output byte of a base64 quad. -/
def b64byte1 (a b : Nat) : Nat := (a * 4 + b / 16) % 256

/-- Second output byte of a base64 quad. -/
def b64byte2 (b c : Nat) : Nat := ((b % 16) * 16 + c / 4) % 256

/-- Third output byte of a base64 quad. -/
def b64byte3 (c d : Nat) : Nat := ((c % 4) * 64 + d) % 256

/-- Decode a list of 6-bit values (whose length is 0, 2 or 3 mod 4 for the
final group, matching the padding check already performed) into bytes. -/
def b64decodeVals : List Nat → Option (List Nat)
  | [] => some []
  | [a, b] => some [b64byte1 a b]
  | [a, b, c] => some [b64byte1 a b, b64byte2 b c]
  | a :: b :: c :: d :: rest =>
    (b64decodeVals rest).map (fun tail => b64byte1 a b :: b64byte2 b c :: b64byte3 c d :: tail)
  | [_] => none

/-- Model of `base64.b64decode(s)` with `validate=False`: characters outside
the alphabet are discarded, then the padding check requires the kept length to
be a multiple of 4 with at most two trailing `=`; on success the 6-bit values
are packed into bytes. -/
def b64decodeChars (s : List Char) : Option (List Nat) :=
  let kept := s.filter (fun c => (b64charVal c).isSome || c == '=')
  let dataPart := kept.takeWhile (fun c => !(c == '='))
  let padPart := kept.drop dataPart.length
  if (padPart.all (fun c => c == '=')) ∧ padPart.length ≤ 2 ∧
      (dataPart.length + padPart.length) % 4 = 0 then
    b64decodeVals (dataPart.filterMap b64charVal)
  else none

/-- Is `b` a utf-8 continuation byte? -/
def utf8Cont (b : Nat) : Bool := if 128 ≤ b ∧ b ≤ 191 then true else false

/-- Model of the utf-8 codec's validity check (`bytes.decode('utf-8')`
succeeds exactly on valid utf-8, rejecting overlongs and surrogates). -/
def utf8Valid : List Nat → Bool
  | [] => true
  | b :: rest =>
    if b ≤ 127 then utf8Valid rest
    else if 194 ≤ b ∧ b ≤ 223 then
      match rest with
      | c :: r2 => if utf8Cont c then utf8Valid r2 else false
      | [] => false
    else if b = 224 then
      match rest with
      | c :: d :: r2 => if (160 ≤ c ∧ c ≤ 191) ∧ utf8Cont d then utf8Valid r2 else false
      | _ => false
    else if (225 ≤ b ∧ b ≤ 236) ∨ b = 238 ∨ b = 239 then
      match rest with
      | c :: d :: r2 => if utf8Cont c ∧ utf8Cont d then utf8Valid r2 else false
      | _ => false
    else if b = 237 then
      match rest with
      | c :: d :: r2 => if (128 ≤ c ∧ c ≤ 159) ∧ utf8Cont d then utf8Valid r2 else false
      | _ => false
    else if b = 240 then
      match rest with
      | c :: d :: e :: r2 => if (144 ≤ c ∧ c ≤ 191) ∧ utf8Cont d ∧ utf8Cont e then utf8Valid r2 else false
      | _ => false
    else if 241 ≤ b ∧ b ≤ 243 then
      match rest with
      | c :: d :: e :: r2 => if utf8Cont c ∧ utf8Cont d ∧ utf8Cont e then utf8Valid r2 else false
      | _ => false
    else if b = 244 then
      match rest with
      | c :: d :: e :: r2 => if (128 ≤ c ∧ c ≤ 143) ∧ utf8Cont d ∧ utf8Cont e then utf8Valid r2 else false
      | _ => false
    else false

/-- Model of `base64.b64decode(credentials).decode('utf-8')`: both the base64
padding check and the utf-8 decode can fail; on success the decoded text is
kept as its byte sequence. -/
def b64decodeUtf8 (s : String) : Option (List Nat) :=
  match b64decodeChars s.toList with
  | none => none
  | some bs => if utf8Valid bs then some bs else none

/-! ## Model of the bcrypt library -/

/-- Model of `bcrypt.hashpw`: an injective deterministic digest (the `$2b`
prefix bytes followed by the password).  Salting is not modelled; the
embedded code only depends on whether a password matches a stored hash. -/
def bcryptHashpw (password : List Nat) : List Nat := 36 :: 50 :: 98 :: password

/-- Model of `bcrypt.checkpw(password, stored_hash)`. -/
def bcryptCheckpw (password stored : List Nat) : Bool := bcryptHashpw password == stored

/-! ## Model of the cryptography.fernet library -/

/-- Model of `Fernet(key).encrypt`: a keyed token, the key tag followed by
the payload. -/
def fernetEncrypt (key : Nat) (data : List Nat) : List Nat := key :: data

/-- Model of `Fernet(key).decrypt`: succeeds exactly on tokens produced with
the same key; anything else raises `InvalidToken`, modelled as `none`. -/
def fernetDecrypt (key : Nat) (token : List Nat) : Option (List Nat) :=
  match token with
  | k :: rest => if k = key then some rest else none
  | [] => none

/-! ## Model of `email.message_from_bytes(data).get('subject', '')` -/

/-- Lower-case an ASCII byte. -/
def asciiLower (b : Nat) : Nat := if 65 ≤ b ∧ b ≤ 90 then b + 32 else b

/-- Split a byte sequence on LF (byte 10), accumulator-style. -/
def splitLinesAux : List Nat → List Nat → List (List Nat)
  | [], acc => [acc.reverse]
  | b :: rest, acc =>
    if b = 10 then acc.reverse :: splitLinesAux rest []
    else splitLinesAux rest (b :: acc)

/-- Drop a trailing CR (byte 13) left by CRLF line endings. -/
def stripCR (l : List Nat) : List Nat :=
  if l.getLast? = some 13 then l.dropLast else l

/-- The bytes of the header name `subject:`. -/
def subjectKeyBytes : List Nat := [115, 117, 98, 106, 101, 99, 116, 58]

/-- Model of the email library's subject extraction used by `save_email`
(storage.py line 24-25): scan the header block (lines before the first blank
line) for a `Subject:` header, case-insensitively, and return its value with
leading spaces stripped; `''` when absent. -/
def getSubject (data : List Nat) : List Nat :=
  let headerLines := ((splitLinesAux data []).map stripCR).takeWhile (fun l => !l.isEmpty)
  match headerLines.find? (fun l => subjectKeyBytes.isPrefixOf (l.map asciiLower)) with
  | some l => (l.drop 8).dropWhile (fun b => b == 32)
  | none => []

/-! ## The schema declared by models.py

models.py (lines 52-62) declares the `Email` table with exactly the columns
`id, sender, recipient, subject, body, folder_id, unread, date` and the
relationship attributes `recipient_user, sender_user, folder` (lines 64-66).
There is no `content`, `uid`, `flags` or `received_at` attribute.  The
declarative constructor used by `Email(**kwargs)` raises `TypeError` for any
keyword that is not an attribute of the class, and accessing a missing class
attribute (e.g. `Email.received_at`) raises `AttributeError`. -/

/-- The mapped columns of the `emails` table (models.py lines 55-62). -/
def emailColumns : List String :=
  ["id", "sender", "recipient", "subject", "body", "folder_id", "unread", "date"]

/-- All attributes of the `Email` class: mapped columns plus relationship
attributes (models.py lines 64-66). -/
def emailClassAttrs : List String :=
  emailColumns ++ ["recipient_user", "sender_user", "folder"]

/-- The keyword arguments `storage.py` passes to `Email(...)` at lines 41-48. -/
def saveEmailCtorKwargs : List String :=
  ["recipient", "sender", "subject", "content", "folder", "received_at"]

/-- A row of the `users` table (models.py lines 18-24). -/
structure UserRow where
  id : Nat
  email : List Nat
  passwordHash : List Nat
deriving DecidableEq

/-- A row of the `folders` table (models.py lines 40-47). -/
structure FolderRow where
  id : Nat
  userEmail : List Nat
  name : List Nat
deriving DecidableEq

/-- A row of the `emails` table with the columns models.py actually declares
(lines 52-62). -/
structure EmailRow where
  id : Nat
  sender : List Nat
  recipient : List Nat
  subject : List Nat
  body : List Nat
  folderId : Nat
  unread : Bool
  date : Nat
deriving DecidableEq

/-- The database state shared by all sessions. -/
structure DB where
  users : List UserRow
  folders : List FolderRow
  emails : List EmailRow
  nextFolderId : Nat
  nextEmailId : Nat
deriving DecidableEq

/-- The dictionary produced per message by `get_emails` (storage.py lines
66-77), had its query been constructible. -/
structure EmailSummary where
  id : Nat
  uid : Nat
  sender : List Nat
  subject : List Nat
  content : List Nat
  flags : List Nat
  receivedAt : Nat
deriving DecidableEq

/-- Model of SQLAlchemy's `Result.scalar_one_or_none()`: `none` for no row,
the row when unique, and an exception when several rows match. -/
def scalarOneOrNone {α : Type} (l : List α) : Except PyErr (Option α) :=
  match l with
  | [] => .ok none
  | [a] => .ok (some a)
  | _ => .error .multipleResults

namespace MailStorage

/-- Shallow embedding of `MailStorage.save_email` (storage.py lines 23-56).
The subject is extracted (line 24-25) and the body encrypted (line 28); the
destination folder is fetched or created and flushed (lines 31-38).  Line 41
then constructs `Email(recipient=..., sender=..., subject=..., content=...,
folder=..., received_at=...)`; SQLAlchemy's declarative constructor rejects
every keyword that is not an attribute of the `Email` class, and `content`
and `received_at` are not among `emailClassAttrs`, so the constructor raises
`TypeError`.  The transaction never reaches `commit()` (line 55), so the
flushed folder insert is rolled back and the store is unchanged:  the
operation returns the error with no new state.  The code from line 41 to 56
(insert, flush, `uid = id + 1000`, commit) is unreachable; the `.ok` branch
below is the (dead) guard-success continuation. -/
def save_email (key : Nat) (db : DB) (recipient sender emailData folderName : List Nat) :
    Except PyErr (DB × Nat) :=
  let _subject := getSubject emailData
  let _sender := sender
  let _encryptedContent := fernetEncrypt key emailData
  let dbFlushed :=
    match db.folders.find? (fun f => f.userEmail == recipient && f.name == folderName) with
    | some _ => db
    | none =>
      { db with
        folders := db.folders ++ [{ id := db.nextFolderId, userEmail := recipient, name := folderName }],
        nextFolderId := db.nextFolderId + 1 }
  if saveEmailCtorKwargs.all (fun k => emailClassAttrs.contains k) then
    .ok (dbFlushed, 0)
  else
    .error .typeError

/-- Shallow embedding of `MailStorage.get_emails` (storage.py lines 58-77).
Building the query at lines 60-63 evaluates `Email.received_at.desc()`; the
`Email` class has no `received_at` attribute, so the attribute access raises
`AttributeError` before the statement ever executes, for every store state,
user and folder.  The listing comprehension (lines 66-77) is unreachable;
the `.ok` branch below is the (dead) guard-success continuation. -/
def get_emails (key : Nat) (db : DB) (email folderName : List Nat) :
    Except PyErr (List EmailSummary) :=
  let _ := key
  let _ := db
  let _ := email
  let _ := folderName
  if emailClassAttrs.contains "received_at" then
    .ok []
  else
    .error .attributeError

/-- Shallow embedding of `MailStorage.update_flags` (storage.py lines 79-83).
The statement `update(Email).where(Email.id == email_id).values(flags=flags)`
carries the VALUES key `flags`, which is not a column of the `emails` table;
compiling the statement at execution raises (SQLAlchemy reports the
unconsumed column name), so the update fails for every message id — present
or absent — and `commit()` is never reached: the store is unchanged. -/
def update_flags (db : DB) (emailId : Nat) (flags : List Nat) : Except PyErr DB :=
  let _ := emailId
  let _ := flags
  if emailColumns.contains "flags" then
    .ok db
  else
    .error .compileError

end MailStorage

/-! ## Submission Session (mail_server.py CustomSMTP, smtp_handler.py SMTPHandler)

The per-connection session object.  `authenticated` models
`getattr(session, 'authenticated', False)`: the attribute is only ever set
to `True`, so absent-and-`False` coincide.  `auth_login_stage` is a dynamic
attribute that can be absent (`none`), set to the Python value `None`
(`some none`), or set to one of the two sub-stage strings. -/

/-- The two AUTH LOGIN sub-stage strings `'username'` and `'password'`. -/
inductive LoginStage where
  | username : LoginStage
  | password : LoginStage
deriving DecidableEq

/-- Transient per-connection SMTP session state. -/
structure SMTPSession where
  authenticated : Bool
  username : Option (List Nat)
  authUsername : Option (List Nat)
  authLoginStage : Option (Option LoginStage)
deriving DecidableEq

/-- The SMTP envelope accumulated during a mail transaction. -/
structure Envelope where
  mailFrom : Option (List Nat)
  rcptTos : List (List Nat)
deriving DecidableEq

/-- Result of an SMTP command handler: either a status-line reply, or the
handler delegated to the default aiosmtpd implementation via `super()`. -/
inductive SMTPReply where
  | reply : String → SMTPReply
  | superDefault : SMTPReply
deriving DecidableEq

namespace CustomSMTP

/-- Shallow embedding of `CustomSMTP.authenticate_user` (mail_server.py lines
153-170): look the user up by email, return `True` exactly when a unique user
exists and bcrypt accepts the password; every exception (including several
matching rows) is mapped to `False`. -/
def authenticate_user (users : List UserRow) (username password : List Nat) : Bool :=
  match scalarOneOrNone (users.filter (fun u => u.email == username)) with
  | .error _ => false
  | .ok none => false
  | .ok (some u) => bcryptCheckpw password u.passwordHash

/-- Shallow embedding of `CustomSMTP.handle_AUTH_LOGIN` (mail_server.py lines
98-151).  Line 104-105 sets `auth_login_stage = 'username'` only when the
attribute is absent; a stage already set — including the `None` written by
every failure path — is kept, which routes repeated exchanges into the final
`else` branch (line 148-151).  In the password branch the credential decode
and the `session.auth_username` read sit in one `try` (lines 126-133), so a
missing `auth_username` fails like a decode error. -/
def handle_AUTH_LOGIN (users : List UserRow) (s : SMTPSession) (credentials : Option String) :
    SMTPSession × String :=
  let stage : Option LoginStage := s.authLoginStage.getD (some .username)
  let s0 : SMTPSession := { s with authLoginStage := some stage }
  match stage with
  | some .username =>
    match credentials with
    | none => (s0, "334 VXNlcm5hbWU6")
    | some cred =>
      match b64decodeUtf8 cred with
      | none => ({ s0 with authLoginStage := some none },
          "535 5.7.8 Authentication credentials invalid")
      | some uname =>
        ({ s0 with authUsername := some uname, authLoginStage := some (some .password) },
          "334 UGFzc3dvcmQ6")
  | some .password =>
    match credentials with
    | none => (s0, "334 ")
    | some cred =>
      match b64decodeUtf8 cred, s0.authUsername with
      | some pwd, some uname =>
        if authenticate_user users uname pwd then
          ({ s0 with authenticated := true, username := some uname, authLoginStage := some none },
            "235 2.7.0 Authentication successful")
        else
          ({ s0 with authLoginStage := some none },
            "535 5.7.8 Authentication credentials invalid")
      | _, _ =>
        ({ s0 with authLoginStage := some none },
          "535 5.7.8 Authentication credentials invalid")
  | none => ({ s0 with authLoginStage := some none }, "500 5.5.2 Authentication failed")

/-- Shallow embedding of `CustomSMTP.handle_MAIL` (mail_server.py lines
172-182): an unauthenticated session is answered `530` with session and
envelope untouched; otherwise control passes to `super().handle_MAIL`. -/
def handle_MAIL (s : SMTPSession) (env : Envelope) (address : List Nat) :
    SMTPSession × Envelope × SMTPReply :=
  let _ := address
  if s.authenticated = false then
    (s, env, .reply "530 5.7.0 Authentication required")
  else (s, env, .superDefault)

/-- Shallow embedding of `CustomSMTP.handle_RCPT` (mail_server.py lines
184-192): same independent authentication gate as `handle_MAIL`. -/
def handle_RCPT (s : SMTPSession) (env : Envelope) (address : List Nat) :
    SMTPSession × Envelope × SMTPReply :=
  let _ := address
  if s.authenticated = false then
    (s, env, .reply "530 5.7.0 Authentication required")
  else (s, env, .superDefault)

/-- Shallow embedding of `CustomSMTP.handle_DATA` (mail_server.py lines
194-202): same independent authentication gate as `handle_MAIL`. -/
def handle_DATA (s : SMTPSession) (env : Envelope) :
    SMTPSession × Envelope × SMTPReply :=
  if s.authenticated = false then
    (s, env, .reply "530 5.7.0 Authentication required")
  else (s, env, .superDefault)

end CustomSMTP

namespace SMTPHandler

/-- Shallow embedding of `SMTPHandler.handle_MAIL` (smtp_handler.py lines
21-25).  This layer gates on `getattr(server, 'authenticated', False)` — an
attribute of the SMTP server object, passed here as `serverAuth`. -/
def handle_MAIL (serverAuth : Bool) (env : Envelope) (address : List Nat) :
    Envelope × String :=
  if serverAuth = false then (env, "530 5.7.0 Authentication required")
  else ({ env with mailFrom := some address }, "250 OK")

/-- Shallow embedding of `SMTPHandler.handle_RCPT` (smtp_handler.py lines
27-35): authentication gate, then the serving-domain check
`address.endswith("@" + domain)`. -/
def handle_RCPT (domain : List Nat) (serverAuth : Bool) (env : Envelope) (address : List Nat) :
    Envelope × String :=
  if serverAuth = false then (env, "530 5.7.0 Authentication required")
  else if !((64 :: domain).isSuffixOf address) then (env, "550 Invalid recipient domain")
  else ({ env with rcptTos := env.rcptTos ++ [address] }, "250 OK")

/-- Shallow embedding of `SMTPHandler.handle_DATA` (smtp_handler.py lines
37-41): `some reply` when the gate rejects, `none` when control passes to
`super().handle_DATA`. -/
def handle_DATA (serverAuth : Bool) : Option String :=
  if serverAuth = false then some "530 5.7.0 Authentication required" else none

end SMTPHandler

/-! ## Retrieval Session (imap_handler.py IMAPProtocol) -/

/-- Transient per-connection IMAP protocol state (imap_handler.py lines
30-38): the input buffer, the logged-in user and the selected mailbox. -/
structure IMAPState where
  buffer : List Char
  currentUser : Option (List Nat)
  selectedMailbox : Option (List Nat)
deriving DecidableEq

/-- Split a character stream at its first CRLF: `some (before, after)` when
one exists, `none` otherwise.  Models `"\r\n" in buffer` together with
`buffer.split("\r\n", 1)` (imap_handler.py lines 46-47). -/
def splitFirstCRLF : List Char → Option (List Char × List Char)
  | [] => none
  | [_] => none
  | c :: n :: rest =>
    if c = '\r' ∧ n = '\n' then some ([], rest)
    else
      match splitFirstCRLF (n :: rest) with
      | some p => some (c :: p.1, p.2)
      | none => none

/-- Shallow embedding of `IMAPProtocol.data_received` (imap_handler.py lines
44-48): the read is appended to the buffer; then a single `if` dispatches at
most one command — the text before the first CRLF — leaving everything after
it (including any further complete lines) in the buffer.  Returns the new
state together with the list of commands dispatched by this call. -/
def data_received (st : IMAPState) (data : List Char) : IMAPState × List (List Char) :=
  let buf := st.buffer ++ data
  match splitFirstCRLF buf with
  | some p => ({ st with buffer := p.2 }, [p.1])
  | none => ({ st with buffer := buf }, [])

/-- One per-message item of a FETCH response: UID, flags and (decrypted)
body. -/
structure FetchEntry where
  uid : Nat
  flags : List Nat
  body : List Nat
deriving DecidableEq

/-- Outcome of `handle_fetch`: the precondition reply, the catch-all
`NO Server error` reply, or a successful per-message listing. -/
inductive FetchResult where
  | denied : FetchResult
  | serverError : FetchResult
  | fetched : List FetchEntry → FetchResult
deriving DecidableEq

/-- Did the fetch return per-message data? -/
def FetchResult.isFetched : FetchResult → Bool
  | .fetched _ => true
  | _ => false

/-- Shallow embedding of `IMAPProtocol.handle_fetch` (imap_handler.py lines
132-157).  Without a logged-in user and a selected mailbox the command is
refused (line 133-135).  Otherwise the whole body runs under one
`try/except`: `get_emails` is called, and each listed message's `content` is
decrypted *again* (lines 144-145) although `get_emails` already returns
decrypted content; any exception anywhere — a failing listing or a failing
decrypt for any single message — aborts the whole fetch with the single
reply `NO Server error`. -/
def handle_fetch (key : Nat) (db : DB) (st : IMAPState) : FetchResult :=
  match st.currentUser, st.selectedMailbox with
  | some user, some mbox =>
    match MailStorage.get_emails key db user mbox with
    | .error _ => .serverError
    | .ok emails =>
      match emails.mapM (fun e => (fernetDecrypt key e.content).map
          (fun d => ({ uid := e.uid, flags := e.flags, body := d } : FetchEntry))) with
      | some entries => .fetched entries
      | none => .serverError
  | _, _ => .denied

/-- Byte sequence of an ASCII string literal, for concrete inputs. -/
def bytesOf (s : String) : List Nat := s.toList.map Char.toNat

/-- Does the AUTH LOGIN step taken by `handle_AUTH_LOGIN` on credentials
`cred` reject?  At the username sub-stage (or before the exchange starts)
this is a base64/utf-8 decoding failure; at the password sub-stage it is a
decoding failure, a missing `auth_username`, or a failed verification.
When the sub-stage is the `None` left behind by an earlier failure, no
rejection of this kind occurs (the handler answers `500` instead). -/
def loginStepRejects (users : List UserRow) (s : SMTPSession) (cred : String) : Bool :=
  match s.authLoginStage.getD (some .username) with
  | some .username => (b64decodeUtf8 cred).isNone
  | some .password =>
    match b64decodeUtf8 cred, s.authUsername with
    | some pwd, some uname => !(CustomSMTP.authenticate_user users uname pwd)
    | _, _ => true
  | none => false

/-! ## Theorems -/

/-- Structure lemma for `splitFirstCRLF`: a successful split reconstructs the
input around its first CRLF, and the part before it contains no CRLF. -/
theorem splitFirstCRLF_some : ∀ (l a b : List Char),
    splitFirstCRLF l = some (a, b) →
    l = a ++ '\r' :: '\n' :: b ∧ splitFirstCRLF a = none := by
  intro l
  induction l with
  | nil => intro a b h; simp [splitFirstCRLF] at h
  | cons c t ih =>
    intro a b h
    cases t with
    | nil => simp [splitFirstCRLF] at h
    | cons n rest =>
      by_cases hcn : c = '\r' ∧ n = '\n'
      · obtain ⟨hc, hn⟩ := hcn
        subst hc; subst hn
        simp [splitFirstCRLF] at h
        obtain ⟨rfl, rfl⟩ := h
        exact ⟨rfl, rfl⟩
      · rw [splitFirstCRLF, if_neg hcn] at h
        cases hsp : splitFirstCRLF (n :: rest) with
        | none => rw [hsp] at h; simp at h
        | some p =>
          rw [hsp] at h
          simp at h
          obtain ⟨rfl, rfl⟩ := h
          obtain ⟨h1, h2⟩ := ih p.1 p.2 (by rw [hsp])
          refine ⟨by rw [List.cons_append, ← h1], ?_⟩
          cases hp1 : p.1 with
          | nil => simp [splitFirstCRLF]
          | cons q qs =>
            rw [hp1, List.cons_append] at h1
            injection h1 with hq hrest
            rw [hp1] at h2
            rw [splitFirstCRLF, if_neg (fun hand => hcn ⟨hand.1, hq.trans hand.2⟩), h2]

/-- C1: in a Submission Session that is not authenticated, each of
`MAIL FROM`, `RCPT TO` and `DATA` is rejected with the 530
authentication-required reply — independently re-checked in both the
`CustomSMTP` override layer and the `SMTPHandler` hook layer — and the
rejection leaves the session state and the envelope unchanged, for every
session state with `authenticated = False` no matter how the connection has
otherwise progressed. -/
theorem c1_auth_gate (s : SMTPSession) (env env2 env3 : Envelope) (addr dom : List Nat)
    (h : s.authenticated = false) :
    CustomSMTP.handle_MAIL s env addr
        = (s, env, .reply "530 5.7.0 Authentication required") ∧
    CustomSMTP.handle_RCPT s env2 addr
        = (s, env2, .reply "530 5.7.0 Authentication required") ∧
    CustomSMTP.handle_DATA s env3
        = (s, env3, .reply "530 5.7.0 Authentication required") ∧
    SMTPHandler.handle_MAIL false env addr = (env, "530 5.7.0 Authentication required") ∧
    SMTPHandler.handle_RCPT dom false env2 addr = (env2, "530 5.7.0 Authentication required") ∧
    SMTPHandler.handle_DATA false = some "530 5.7.0 Authentication required" := by
  refine ⟨?_, ?_, ?_, ?_, ?_, ?_⟩ <;>
    simp [CustomSMTP.handle_MAIL, CustomSMTP.handle_RCPT, CustomSMTP.handle_DATA,
      SMTPHandler.handle_MAIL, SMTPHandler.handle_RCPT, SMTPHandler.handle_DATA, h]

/-- Witness for C1 at a concrete unauthenticated session. -/
theorem c1_auth_gate_witness :
    CustomSMTP.handle_MAIL ⟨false, none, none, none⟩ ⟨none, []⟩ (bytesOf "a@weizart.com")
        = (⟨false, none, none, none⟩, ⟨none, []⟩, .reply "530 5.7.0 Authentication required") ∧
    CustomSMTP.handle_RCPT ⟨false, none, none, none⟩ ⟨none, []⟩ (bytesOf "a@weizart.com")
        = (⟨false, none, none, none⟩, ⟨none, []⟩, .reply "530 5.7.0 Authentication required") ∧
    CustomSMTP.handle_DATA ⟨false, none, none, none⟩ ⟨none, []⟩
        = (⟨false, none, none, none⟩, ⟨none, []⟩, .reply "530 5.7.0 Authentication required") ∧
    SMTPHandler.handle_MAIL false ⟨none, []⟩ (bytesOf "a@weizart.com")
        = (⟨none, []⟩, "530 5.7.0 Authentication required") ∧
    SMTPHandler.handle_RCPT (bytesOf "weizart.com") false ⟨none, []⟩ (bytesOf "a@weizart.com")
        = (⟨none, []⟩, "530 5.7.0 Authentication required") ∧
    SMTPHandler.handle_DATA false = some "530 5.7.0 Authentication required" :=
  c1_auth_gate ⟨false, none, none, none⟩ ⟨none, []⟩ ⟨none, []⟩ ⟨none, []⟩
    (bytesOf "a@weizart.com") (bytesOf "weizart.com") rfl

/-- C2: the deliver-then-list round-trip is impossible in this code.
`save_email` raises `TypeError` on every call (the `Email` constructor is
given the keywords `content` and `received_at`, which the model declares no
attribute for), so nothing is ever stored, and `get_emails` raises
`AttributeError` (no `Email.received_at` to order by), so nothing is ever
listed — shown here at a concrete valid (recipient, sender, message)
triple whose recipient user exists. -/
theorem c2_roundtrip_impossible :
    MailStorage.save_email 7
        (⟨[⟨1, bytesOf "alice@weizart.com", bcryptHashpw (bytesOf "pw")⟩], [], [], 1, 1⟩ : DB)
        (bytesOf "alice@weizart.com") (bytesOf "bob@weizart.com")
        (bytesOf "Subject: hello\r\n\r\nHi there") (bytesOf "INBOX")
      = .error .typeError ∧
    MailStorage.get_emails 7
        (⟨[⟨1, bytesOf "alice@weizart.com", bcryptHashpw (bytesOf "pw")⟩], [], [], 1, 1⟩ : DB)
        (bytesOf "alice@weizart.com") (bytesOf "INBOX")
      = .error .attributeError :=
  ⟨rfl, rfl⟩

/-- C3: no UID is ever allocated.  Both of two consecutive `save_email`
calls raise `TypeError` before reaching the flush/UID-assignment/commit
sequence, so no message row ever becomes visible and no UID is returned;
moreover `uid` is not an attribute of the `Email` model at all, so even the
assignment `new_email.uid = new_email.id + 1000` could never persist. -/
theorem c3_no_uid_allocated :
    MailStorage.save_email 7
        (⟨[⟨1, bytesOf "u@weizart.com", bcryptHashpw (bytesOf "pw")⟩], [], [], 1, 1⟩ : DB)
        (bytesOf "u@weizart.com") (bytesOf "s@x.com")
        (bytesOf "Subject: one\r\n\r\nfirst") (bytesOf "INBOX")
      = .error .typeError ∧
    MailStorage.save_email 7
        (⟨[⟨1, bytesOf "u@weizart.com", bcryptHashpw (bytesOf "pw")⟩], [], [], 1, 1⟩ : DB)
        (bytesOf "u@weizart.com") (bytesOf "s@x.com")
        (bytesOf "Subject: two\r\n\r\nsecond") (bytesOf "INBOX")
      = .error .typeError ∧
    emailClassAttrs.contains "uid" = false :=
  ⟨rfl, rfl, by decide⟩

/-- C4 counterexample: for a recipient with no `User` record, `save_email`
does not fail with `UnknownRecipient` — it performs no recipient-existence
check at all and fails with the constructor `TypeError` that every call
hits. -/
theorem c4_counterexample :
    MailStorage.save_email 7 (⟨[], [], [], 1, 1⟩ : DB)
        (bytesOf "ghost@weizart.com") (bytesOf "sender@weizart.com")
        (bytesOf "Subject: x\r\n\r\ny") (bytesOf "INBOX")
      = .error .typeError ∧
    PyErr.typeError ≠ PyErr.unknownRecipient :=
  ⟨rfl, by decide⟩

/-- C4 amended: `save_email` performs no recipient-existence validation and
never fails with `UnknownRecipient`; every call — whether or not a `User`
record exists for the recipient — fails with `TypeError` from the `Email`
constructor, and no message is stored. -/
theorem c4_amended (key : Nat) (db : DB) (recipient sender emailData folderName : List Nat) :
    MailStorage.save_email key db recipient sender emailData folderName
      = .error .typeError ∧
    PyErr.typeError ≠ PyErr.unknownRecipient :=
  ⟨rfl, by decide⟩

/-- C5 counterexample: in the SELECTED state over a store holding a message,
`FETCH` does not report per-message results (and in particular no inline
`CorruptMessage` entry): the whole fetch fails with the single catch-all
`NO Server error` reply. -/
theorem c5_counterexample :
    handle_fetch 7
        (⟨[⟨1, bytesOf "u@weizart.com", bcryptHashpw (bytesOf "pw")⟩],
          [⟨1, bytesOf "u@weizart.com", bytesOf "INBOX"⟩],
          [⟨1, bytesOf "s@x.com", bytesOf "u@weizart.com", bytesOf "hi",
            bytesOf "garbled-not-a-token", 1, true, 0⟩], 2, 2⟩ : DB)
        ⟨[], some (bytesOf "u@weizart.com"), some (bytesOf "INBOX")⟩
      = .serverError ∧
    (handle_fetch 7
        (⟨[⟨1, bytesOf "u@weizart.com", bcryptHashpw (bytesOf "pw")⟩],
          [⟨1, bytesOf "u@weizart.com", bytesOf "INBOX"⟩],
          [⟨1, bytesOf "s@x.com", bytesOf "u@weizart.com", bytesOf "hi",
            bytesOf "garbled-not-a-token", 1, true, 0⟩], 2, 2⟩ : DB)
        ⟨[], some (bytesOf "u@weizart.com"), some (bytesOf "INBOX")⟩).isFetched = false :=
  ⟨rfl, rfl⟩

/-- C5 amended: with a current user and a selected mailbox, `handle_fetch`
always fails as a whole: the `get_emails` listing raises before any message
is processed, the exception is caught by the handler's single `try/except`,
and the reply is the catch-all `NO Server error`; no per-message entry (and
no inline `CorruptMessage` report) is ever produced, and a decryption
failure for one message would likewise abort the whole fetch through the
same `try/except`. -/
theorem c5_amended (key : Nat) (db : DB) (user mbox : List Nat) (buf : List Char) :
    handle_fetch key db ⟨buf, some user, some mbox⟩ = .serverError :=
  rfl

/-- C6 counterexample: after an `AUTH LOGIN` exchange fails (valid base64
username, wrong password ⇒ `535`), the sub-stage is reset to the Python
value `None` — but a *subsequent* `AUTH LOGIN` does not start a fresh
exchange at the username sub-stage: because the attribute exists (holding
`None`), the handler answers `500 5.5.2 Authentication failed` instead of
the `334 VXNlcm5hbWU6` username challenge. -/
theorem c6_counterexample :
    (let users : List UserRow := [⟨1, bytesOf "user@weizart.com", bcryptHashpw (bytesOf "secret")⟩]
     let s0 : SMTPSession := ⟨false, none, none, none⟩
     let r1 := CustomSMTP.handle_AUTH_LOGIN users s0 (some "dXNlckB3ZWl6YXJ0LmNvbQ==")
     let r2 := CustomSMTP.handle_AUTH_LOGIN users r1.1 (some "d3Jvbmc=")
     let r3 := CustomSMTP.handle_AUTH_LOGIN users r2.1 none
     r1.2 = "334 UGFzc3dvcmQ6" ∧
     r2.2 = "535 5.7.8 Authentication credentials invalid" ∧
     r2.1.authenticated = false ∧
     r2.1.authLoginStage = some none ∧
     r3.2 = "500 5.5.2 Authentication failed" ∧
     ¬ (r3.2 = "334 VXNlcm5hbWU6")) := by
  decide

/-- C6 amended: during an `AUTH LOGIN` exchange, any base64/utf-8 decoding
failure or failed password verification ends the exchange with the `535`
rejection, leaves the session unauthenticated, and resets the LOGIN
sub-stage to the Python value `None`; however a subsequent `AUTH LOGIN`
command does not start a fresh exchange at the username sub-stage — the
handler answers `500 5.5.2 Authentication failed` because the sub-stage
attribute exists and is `None`. -/
theorem c6_amended (users : List UserRow) (s : SMTPSession) (cred : String)
    (hauth : s.authenticated = false)
    (hrej : loginStepRejects users s cred = true) :
    (CustomSMTP.handle_AUTH_LOGIN users s (some cred)).2
        = "535 5.7.8 Authentication credentials invalid" ∧
    (CustomSMTP.handle_AUTH_LOGIN users s (some cred)).1.authenticated = false ∧
    (CustomSMTP.handle_AUTH_LOGIN users s (some cred)).1.authLoginStage = some none ∧
    (CustomSMTP.handle_AUTH_LOGIN users
        (CustomSMTP.handle_AUTH_LOGIN users s (some cred)).1 none).2
        = "500 5.5.2 Authentication failed" := by
  unfold loginStepRejects at hrej
  unfold CustomSMTP.handle_AUTH_LOGIN
  cases hals : s.authLoginStage with
  | none =>
    rw [hals] at hrej
    simp only [Option.getD_none] at hrej ⊢
    cases hdec : b64decodeUtf8 cred with
    | none => simp [hdec, hauth, CustomSMTP.handle_AUTH_LOGIN]
    | some u => rw [hdec] at hrej; simp [hdec] at hrej
  | some st =>
    rw [hals] at hrej
    simp only [Option.getD_some] at hrej ⊢
    cases st with
    | none => simp at hrej
    | some sub =>
      cases sub with
      | username =>
        cases hdec : b64decodeUtf8 cred with
        | none => simp [hdec, hauth, CustomSMTP.handle_AUTH_LOGIN]
        | some u => rw [hdec] at hrej; simp [hdec] at hrej
      | password =>
        cases hdec : b64decodeUtf8 cred with
        | none => simp [hdec, hauth, CustomSMTP.handle_AUTH_LOGIN]
        | some pwd =>
          cases huser : s.authUsername with
          | none => simp [hdec, huser, hauth, CustomSMTP.handle_AUTH_LOGIN]
          | some uname =>
            rw [hdec, huser] at hrej
            simp only [Bool.not_eq_true'] at hrej
            simp [hdec, huser, hrej, hauth, CustomSMTP.handle_AUTH_LOGIN]

/-- Witness for C6 amended: a fresh unauthenticated session and credentials
whose base64 decoding fails. -/
theorem c6_amended_witness :
    (CustomSMTP.handle_AUTH_LOGIN [] ⟨false, none, none, none⟩ (some "A")).2
        = "535 5.7.8 Authentication credentials invalid" ∧
    (CustomSMTP.handle_AUTH_LOGIN [] ⟨false, none, none, none⟩ (some "A")).1.authenticated
        = false ∧
    (CustomSMTP.handle_AUTH_LOGIN [] ⟨false, none, none, none⟩ (some "A")).1.authLoginStage
        = some none ∧
    (CustomSMTP.handle_AUTH_LOGIN []
        (CustomSMTP.handle_AUTH_LOGIN [] ⟨false, none, none, none⟩ (some "A")).1 none).2
        = "500 5.5.2 Authentication failed" :=
  c6_amended [] ⟨false, none, none, none⟩ "A" rfl (by decide)

/-- C7 counterexample: for an absent message id (the store holds only the
message with id 1), `update_flags` does not fail with `NotFound`: it fails
with the schema error raised when compiling `values(flags=...)` — `flags` is
not a column of the `emails` table. -/
theorem c7_counterexample :
    MailStorage.update_flags
        (⟨[], [], [⟨1, bytesOf "s@x.com", bytesOf "u@weizart.com", bytesOf "hi",
            bytesOf "b", 1, true, 0⟩], 2, 2⟩ : DB)
        5 (bytesOf "\\Seen")
      = .error .compileError ∧
    PyErr.compileError ≠ PyErr.notFound :=
  ⟨rfl, by decide⟩

/-- C7 amended: `update_flags` fails for every store state, message id and
flag set with a schema error (`flags` is not a mapped column of `Email`),
leaving the store unchanged; in particular it never overwrites a flag set
and never reports `NotFound` for an absent id. -/
theorem c7_amended (db : DB) (emailId : Nat) (flags : List Nat) :
    MailStorage.update_flags db emailId flags = .error .compileError ∧
    emailColumns.contains "flags" = false :=
  ⟨rfl, by decide⟩

/-- C8 counterexample: on a store holding two messages in the user's INBOX,
`get_emails` returns no listing at all (so in particular no ordering by
received timestamp with UID tie-break): it fails with `AttributeError`
because the query orders by the non-existent `Email.received_at`. -/
theorem c8_counterexample :
    (⟨[⟨1, bytesOf "u@weizart.com", bcryptHashpw (bytesOf "pw")⟩],
      [⟨1, bytesOf "u@weizart.com", bytesOf "INBOX"⟩],
      [⟨1, bytesOf "s@x.com", bytesOf "u@weizart.com", bytesOf "one", bytesOf "b1", 1, true, 5⟩,
       ⟨2, bytesOf "s@x.com", bytesOf "u@weizart.com", bytesOf "two", bytesOf "b2", 1, true, 9⟩],
      2, 3⟩ : DB).emails.length = 2 ∧
    (MailStorage.get_emails 7
        (⟨[⟨1, bytesOf "u@weizart.com", bcryptHashpw (bytesOf "pw")⟩],
          [⟨1, bytesOf "u@weizart.com", bytesOf "INBOX"⟩],
          [⟨1, bytesOf "s@x.com", bytesOf "u@weizart.com", bytesOf "one", bytesOf "b1", 1, true, 5⟩,
           ⟨2, bytesOf "s@x.com", bytesOf "u@weizart.com", bytesOf "two", bytesOf "b2", 1, true, 9⟩],
          2, 3⟩ : DB)
        (bytesOf "u@weizart.com") (bytesOf "INBOX")).toOption
      = (none : Option (List EmailSummary)) :=
  ⟨rfl, rfl⟩

/-- C8 amended: `get_emails` never returns an ordered listing: for every
store state, user and folder it fails with `AttributeError`, because the
`Email` model has no `received_at` attribute for the query's single
`order_by` key (the code contains no UID tie-break either way). -/
theorem c8_amended (key : Nat) (db : DB) (email folderName : List Nat) :
    MailStorage.get_emails key db email folderName = .error .attributeError ∧
    emailClassAttrs.contains "received_at" = false :=
  ⟨rfl, by decide⟩

/-- C9 counterexample: a single read delivering two complete CRLF-terminated
lines dispatches only the first as a command; the second complete line stays
in the buffer and is not handled by this call. -/
theorem c9_counterexample :
    (data_received ⟨[], none, none⟩ ("a\r\nb\r\n".toList)).2 = ["a".toList] ∧
    (data_received ⟨[], none, none⟩ ("a\r\nb\r\n".toList)).1.buffer = "b\r\n".toList ∧
    ¬ ((["a".toList] : List (List Char)) = ["a".toList, "b".toList]) := by
  decide

/-- C9 amended: input is parsed one command per CRLF-terminated line with
partial input buffered across reads, but each `data_received` call handles
at most one complete line — the text before the first CRLF — and everything
after it, including any further complete lines delivered in the same read,
remains buffered until a later read arrives. -/
theorem c9_amended (st : IMAPState) (data : List Char) :
    (data_received st data).2.length ≤ 1 ∧
    (splitFirstCRLF (st.buffer ++ data) = none →
      data_received st data = ({ st with buffer := st.buffer ++ data }, [])) ∧
    (∀ cmd rest, splitFirstCRLF (st.buffer ++ data) = some (cmd, rest) →
      data_received st data = ({ st with buffer := rest }, [cmd]) ∧
      st.buffer ++ data = cmd ++ '\r' :: '\n' :: rest ∧
      splitFirstCRLF cmd = none) := by
  refine ⟨?_, ?_, ?_⟩
  · cases h : splitFirstCRLF (st.buffer ++ data) <;> simp [data_received, h]
  · intro h; simp [data_received, h]
  · intro cmd rest h
    have hs := splitFirstCRLF_some (st.buffer ++ data) cmd rest h
    exact ⟨by simp [data_received, h], hs.1, hs.2⟩

/-- Witness for C9 amended: a read completing a buffered partial line. -/
theorem c9_amended_witness :
    data_received ⟨"x\r".toList, none, none⟩ ("\ny\r\n".toList)
        = (⟨"y\r\n".toList, none, none⟩, ["x".toList]) ∧
    "x\r".toList ++ "\ny\r\n".toList = "x".toList ++ '\r' :: '\n' :: "y\r\n".toList ∧
    splitFirstCRLF "x".toList = none :=
  (c9_amended ⟨"x\r".toList, none, none⟩ ("\ny\r\n".toList)).2.2 "x".toList ("y\r\n".toList)
    (by decide)

/-- C10: the claimed persisted layout does not exist.  The `Email` model has
no `content` and no `received_at` attribute, while `save_email` passes
exactly those keywords to the constructor, so the construction raises
`TypeError` and nothing — encrypted body or plaintext metadata — is ever
persisted, shown at a concrete call. -/
theorem c10_content_not_persisted :
    emailClassAttrs.contains "content" = false ∧
    emailClassAttrs.contains "received_at" = false ∧
    saveEmailCtorKwargs.contains "content" = true ∧
    MailStorage.save_email 7
        (⟨[⟨1, bytesOf "r@weizart.com", bcryptHashpw (bytesOf "pw")⟩], [], [], 1, 1⟩ : DB)
        (bytesOf "r@weizart.com") (bytesOf "s@weizart.com")
        (bytesOf "Subject: topic\r\n\r\nbody bytes") (bytesOf "INBOX")
      = .error .typeError :=
  ⟨by decide, by decide, by decide, rfl⟩

end EmailServer
